import Mathlib

/-!
Shallow embedding of `cpp/src/arrow/filesystem/localfs.cc` (Apache Arrow,
local filesystem layer): the stat-normalization logic (`StatToFileStat`,
`FileInformationToFileStat`, `StatFile` on POSIX and Windows), the recursive
directory selector (`StatSelector`) and the `LocalFileSystem` facade
operations.

External collaborators (the path resolver `PlatformFilename`, the raw
syscalls `stat`, `ListDir`, `FileExists`, the create/delete primitives, the
stream constructors) are modelled as oracle functions bundled in a `World`
structure.  Every facade operation returns both its result (`Except Error α`)
and the ordered list of external calls it performed (`List ExtCall`), so that
"no filesystem work was performed" is expressible as a statement about the
trace.

Machine integers (`int64_t`, `int32_t`) are modelled as `Int`; the sentinel
values `kNoSize` / `kNoTime` are modelled by `Option.none` on the `size` /
`mtime` fields.  Timestamps are nanosecond counts since the Unix epoch
(`TimePoint` with nanosecond duration in the source).
-/

namespace ArrowFs

/-- `arrow::fs::FileType`: closed enumeration of entity kinds. -/
inductive FileType where
  | File
  | Directory
  | NonExistent
  | Unknown
deriving DecidableEq, Repr

/-- `arrow::fs::FileStats`: portable attribute record.  `size = none` models
the `kNoSize` sentinel and `mtime = none` models the `kNoTime` sentinel;
`mtime = some n` is a timestamp of `n` nanoseconds since the Unix epoch. -/
structure FileStats where
  path : String
  type : FileType
  size : Option Int
  mtime : Option Int
deriving DecidableEq, Repr

/-- Status codes distinguished by this layer: `Status::IOError` (tested by
`Status::IsIOError`), `Status::Invalid` (invalid path), anything else. -/
inductive StatusCode where
  | IOError
  | Invalid
  | UnknownError
deriving DecidableEq, Repr

/-- An error `Status`: a code plus the formatted message. -/
structure Error where
  code : StatusCode
  msg : String
deriving DecidableEq, Repr

/-- POSIX `errno` values distinguished by `StatFile`; `other n` covers every
remaining errno. -/
inductive Errno where
  | ENOENT
  | ENOTDIR
  | ELOOP
  | EACCES
  | other (n : Nat)
deriving DecidableEq, Repr

/-- The fields of `struct stat` consumed by `StatToFileStat`: the
`S_ISREG` / `S_ISDIR` tests on `st_mode`, `st_size`, and the `st_mtim`
timespec (seconds and nanoseconds). -/
structure UnixStat where
  isReg : Bool
  isDir : Bool
  st_size : Int
  mtimeSec : Int
  mtimeNsec : Int
deriving DecidableEq, Repr

/-- `ToTimePoint(const struct timespec&)`: nanoseconds since the Unix epoch,
`tv_sec * 10^9 + tv_nsec`. -/
def ToTimePoint (sec nsec : Int) : Int :=
  sec * 1000000000 + nsec

/-- `StatToFileStat` (POSIX): map the native mode flags.  `S_ISREG` gives
`File` with the reported size, `S_ISDIR` gives `Directory` with `kNoSize`,
anything else gives `Unknown` with `kNoSize`; the mtime is set
unconditionally from the stat timespec.  The `path` field is set later by
the caller (`StatFile`), modelled here as `""`. -/
def StatToFileStat (s : UnixStat) : FileStats :=
  if s.isReg then
    { path := "", type := FileType.File, size := some s.st_size,
      mtime := some (ToTimePoint s.mtimeSec s.mtimeNsec) }
  else if s.isDir then
    { path := "", type := FileType.Directory, size := none,
      mtime := some (ToTimePoint s.mtimeSec s.mtimeNsec) }
  else
    { path := "", type := FileType.Unknown, size := none,
      mtime := some (ToTimePoint s.mtimeSec s.mtimeNsec) }

/-- External calls a facade operation can perform, in order.  `resolve` is
the Path Resolver (`PlatformFilename::FromString`); the rest are the raw
syscall / stream collaborators. -/
inductive ExtCall where
  | resolve (path : String)
  | statCall (native : String)
  | listDir (native : String)
  | fileExists (native : String)
  | createDir (native : String)
  | createDirTree (native : String)
  | deleteDirTree (native : String)
  | deleteDirContents (native : String)
  | deleteFile (native : String)
  | rename (src dest : String)
  | mmapOpen (path : String)
  | readableOpen (path : String)
  | fileOpenWritable (native : String) (writeOnly truncate append : Bool)
  | fileOutputStreamOpen (fd : Nat)
  | fileClose (fd : Nat)
  | copyStream (src dest : Nat) (chunkSize : Nat)
  | outputStreamClose (handle : Nat)
  | inputStreamClose (handle : Nat)
deriving DecidableEq, Repr

/-- Oracle model of the external collaborators.  `fromString` is the Path
Resolver (portable string to native path, here also a string — on POSIX the
native representation is the same byte string); `statCall` is the raw
`stat()` outcome per native path; `errnoMsg` is `ErrnoMessage`; the
remaining fields are the raw listing / create / delete / rename / stream
primitives, each giving the outcome of calling it on those arguments. -/
structure World where
  fromString : String → Except Error String
  join : String → String → String
  statCall : String → Except Errno UnixStat
  errnoMsg : Errno → String
  listDir : String → Except Error (List String)
  fileExists : String → Except Error Bool
  createDir : String → Except Error Unit
  createDirTree : String → Except Error Unit
  deleteDirTree : String → Except Error Bool
  deleteDirContents : String → Except Error Bool
  deleteFile : String → Except Error Bool
  rename : String → String → Except Errno Unit
  mmapOpen : String → Except Error Nat
  readableOpen : String → Except Error Nat
  fileOpenWritable : String → Bool → Bool → Bool → Except Error Nat
  fileOutputStreamOpen : Nat → Except Error Nat
  copyStream : Nat → Nat → Nat → Except Error Unit
  outputStreamClose : Nat → Except Error Unit
  inputStreamClose : Nat → Except Error Unit

/-- `ErrnoToStatus(head..., err_string)`: an `IOError` status whose message
is the concatenated arguments followed by the errno message. -/
def ErrnoToStatus (emsg : Errno → String) (head : String) (e : Errno) : Error :=
  { code := StatusCode.IOError, msg := head ++ emsg e }

/-- `StatFile` (POSIX): run `stat()` on the native path.  `ENOENT`,
`ENOTDIR` and `ELOOP` yield a successful `NonExistent` record with both
sentinels; any other errno yields `IOError` "Failed stat()ing path
'<path>'" followed by the errno message; on success the record comes from
`StatToFileStat`.  In every success branch the `path` field is set to the
queried path.  The second component is the trace (one raw `stat` call). -/
def StatFile (w : World) (path : String) :
    Except Error FileStats × List ExtCall :=
  match w.statCall path with
  | Except.error e =>
    if e = Errno.ENOENT ∨ e = Errno.ENOTDIR ∨ e = Errno.ELOOP then
      (Except.ok { path := path, type := FileType.NonExistent,
                   size := none, mtime := none },
       [ExtCall.statCall path])
    else
      (Except.error
        (ErrnoToStatus w.errnoMsg ("Failed stat()ing path '" ++ path ++ "'") e),
       [ExtCall.statCall path])
  | Except.ok s =>
    (Except.ok { StatToFileStat s with path := path }, [ExtCall.statCall path])

/-! Windows variant of the Native Stat Adapter. -/

/-- Win32 error codes distinguished by the Windows `StatFile`. -/
inductive WinError where
  | ERROR_FILE_NOT_FOUND
  | ERROR_PATH_NOT_FOUND
  | other (n : Nat)
deriving DecidableEq, Repr

/-- A Win32 `FILETIME`: two 32-bit halves of a count of 100-nanosecond
intervals since January 1, 1601 (UTC). -/
structure FILETIME where
  dwHighDateTime : Nat
  dwLowDateTime : Nat
deriving DecidableEq, Repr

/-- Hundreds of nanoseconds between January 1, 1601 (UTC) and the Unix
epoch (`kFileTimeEpoch` in the source). -/
def kFileTimeEpoch : Int := 11644473600 * 10000000

/-- `ToTimePoint(FILETIME)`: recombine the two halves, shift by the
1601-to-1970 epoch constant, and scale 100 ns units to nanoseconds. -/
def ToTimePointWin (ft : FILETIME) : Int :=
  100 * ((ft.dwHighDateTime : Int) * 4294967296 + (ft.dwLowDateTime : Int)
         - kFileTimeEpoch)

/-- `FILE_ATTRIBUTE_DIRECTORY` bit of `dwFileAttributes`. -/
def FILE_ATTRIBUTE_DIRECTORY : Nat := 16

/-- `FILE_ATTRIBUTE_DEVICE` bit of `dwFileAttributes` (never tested by the
code; present so that non-file, non-directory native entities are
representable). -/
def FILE_ATTRIBUTE_DEVICE : Nat := 64

/-- The fields of `BY_HANDLE_FILE_INFORMATION` consumed by
`FileInformationToFileStat`. -/
structure ByHandleFileInformation where
  dwFileAttributes : Nat
  nFileSizeHigh : Nat
  nFileSizeLow : Nat
  ftLastWriteTime : FILETIME
deriving DecidableEq, Repr

/-- `FileInformationToFileStat` (Windows): only the directory attribute is
tested; a directory gives `Directory` with `kNoSize`, and every other
entity is treated as a regular file (`File` with the recombined 64-bit
size).  The mtime is set unconditionally from `ftLastWriteTime`. -/
def FileInformationToFileStat (info : ByHandleFileInformation) : FileStats :=
  if info.dwFileAttributes &&& FILE_ATTRIBUTE_DIRECTORY ≠ 0 then
    { path := "", type := FileType.Directory, size := none,
      mtime := some (ToTimePointWin info.ftLastWriteTime) }
  else
    { path := "", type := FileType.File,
      size := some ((info.nFileSizeHigh : Int) * 4294967296 +
                    (info.nFileSizeLow : Int)),
      mtime := some (ToTimePointWin info.ftLastWriteTime) }

/-- Outcome of the `CreateFileW` / `GetFileInformationByHandle` pair in the
Windows `StatFile`: the open can fail, the information query can fail, or
both succeed with a `BY_HANDLE_FILE_INFORMATION`. -/
inductive WinStatOutcome where
  | openFailed (err : WinError)
  | infoFailed (err : WinError)
  | ok (info : ByHandleFileInformation)
deriving DecidableEq, Repr

/-- `StatFile` (Windows): `winStat` is the oracle for the native calls on
the queried path, `winMsg` is `WinErrorMessage`, and `toPortable` is
`NativeToString` (wide native path back to the portable byte string).
`ERROR_FILE_NOT_FOUND` / `ERROR_PATH_NOT_FOUND` on open yield a successful
`NonExistent` record with both sentinels; any other open failure, or a
failure of the information query, yields an `IOError` naming the path;
otherwise the record comes from `FileInformationToFileStat` with the `path`
field set to the portable form. -/
def StatFileWin (winStat : String → WinStatOutcome) (winMsg : WinError → String)
    (toPortable : String → String) (path : String) : Except Error FileStats :=
  let bytes_path := toPortable path
  match winStat path with
  | WinStatOutcome.openFailed err =>
    if err = WinError.ERROR_FILE_NOT_FOUND ∨ err = WinError.ERROR_PATH_NOT_FOUND then
      Except.ok { path := bytes_path, type := FileType.NonExistent,
                  size := none, mtime := none }
    else
      Except.error
        { code := StatusCode.IOError,
          msg := "Failed querying information for path '" ++ bytes_path ++ "'"
                 ++ winMsg err }
  | WinStatOutcome.infoFailed err =>
    Except.error
      { code := StatusCode.IOError,
        msg := "Failed querying information for path '" ++ bytes_path ++ "'"
               ++ winMsg err }
  | WinStatOutcome.ok info =>
    Except.ok { FileInformationToFileStat info with path := bytes_path }

/-! The directory selector. -/

/-- `arrow::fs::Selector`: query descriptor for tree enumeration.
`max_recursion` is an `int32_t` in the source, modelled as `Int`. -/
structure Selector where
  base_dir : String
  allow_non_existent : Bool
  recursive : Bool
  max_recursion : Int
deriving DecidableEq, Repr

mutual

/-- `StatSelector(dir_fn, select, nesting_depth, out)`: list the directory;
on a listing failure, if `allow_non_existent` is set and the failure is an
I/O error, re-check existence via `FileExists` and return success with no
entries when the directory genuinely no longer exists, otherwise propagate
the failure (a failure of the `FileExists` re-check itself is propagated);
on a successful listing, process the children in order.  The result is the
appended sequence of records (the source appends into `*out`), paired with
the trace of external calls. -/
def StatSelector (w : World) (select : Selector) (dir_fn : String)
    (nesting_depth : Int) : Except Error (List FileStats) × List ExtCall :=
  match w.listDir dir_fn with
  | Except.error status =>
    if select.allow_non_existent ∧ status.code = StatusCode.IOError then
      match w.fileExists dir_fn with
      | Except.error e =>
        (Except.error e, [ExtCall.listDir dir_fn, ExtCall.fileExists dir_fn])
      | Except.ok ex =>
        if ex then
          (Except.error status, [ExtCall.listDir dir_fn, ExtCall.fileExists dir_fn])
        else
          (Except.ok [], [ExtCall.listDir dir_fn, ExtCall.fileExists dir_fn])
    else
      (Except.error status, [ExtCall.listDir dir_fn])
  | Except.ok children =>
    let r := statSelectorLoop w select dir_fn nesting_depth children
    (r.1, ExtCall.listDir dir_fn :: r.2)
termination_by ((select.max_recursion - nesting_depth).toNat, 1, 0)

/-- The `for (const auto& child_fn : children)` loop body of `StatSelector`:
join each child name with the parent, stat it, append the record unless its
type is `NonExistent`, and recurse into it (before moving to the next
sibling) exactly when `nesting_depth < max_recursion`, `recursive` is set
and the statted type is `Directory`.  Any stat or recursive failure aborts
the loop and propagates. -/
def statSelectorLoop (w : World) (select : Selector) (dir_fn : String)
    (nesting_depth : Int) (children : List String) :
    Except Error (List FileStats) × List ExtCall :=
  match children with
  | [] => (Except.ok [], [])
  | child :: rest =>
    let full := w.join dir_fn child
    match StatFile w full with
    | (Except.error e, t) => (Except.error e, t)
    | (Except.ok st, t) =>
      let here := if st.type ≠ FileType.NonExistent then [st] else []
      if h : nesting_depth < select.max_recursion ∧ select.recursive = true ∧
             st.type = FileType.Directory then
        match StatSelector w select full (nesting_depth + 1) with
        | (Except.error e, t2) => (Except.error e, t ++ t2)
        | (Except.ok sub, t2) =>
          match statSelectorLoop w select dir_fn nesting_depth rest with
          | (Except.error e, t3) => (Except.error e, t ++ t2 ++ t3)
          | (Except.ok tail, t3) => (Except.ok (here ++ sub ++ tail), t ++ t2 ++ t3)
      else
        match statSelectorLoop w select dir_fn nesting_depth rest with
        | (Except.error e, t3) => (Except.error e, t ++ t3)
        | (Except.ok tail, t3) => (Except.ok (here ++ tail), t ++ t3)
termination_by ((select.max_recursion - nesting_depth).toNat, 0, children.length + 1)

end

/-! The filesystem facade. -/

/-- `arrow::fs::LocalFileSystemOptions`: the only configuration is the
`use_mmap` flag selecting memory-mapped vs. buffered input streams. -/
structure LocalFileSystemOptions where
  use_mmap : Bool
deriving DecidableEq, Repr

namespace LocalFileSystem

/-- `LocalFileSystem::GetTargetStats(const std::string&)` (StatOne):
resolve the portable path, then `StatFile` on its native form. -/
def GetTargetStats (w : World) (path : String) :
    Except Error FileStats × List ExtCall :=
  match w.fromString path with
  | Except.error e => (Except.error e, [ExtCall.resolve path])
  | Except.ok fn =>
    let r := StatFile w fn
    (r.1, ExtCall.resolve path :: r.2)

/-- `LocalFileSystem::GetTargetStats(const Selector&)` (StatSelector):
resolve `base_dir`, then run the recursive selector at nesting depth 0. -/
def GetTargetStatsSelector (w : World) (select : Selector) :
    Except Error (List FileStats) × List ExtCall :=
  match w.fromString select.base_dir with
  | Except.error e => (Except.error e, [ExtCall.resolve select.base_dir])
  | Except.ok fn =>
    let r := StatSelector w select fn 0
    (r.1, ExtCall.resolve select.base_dir :: r.2)

/-- `LocalFileSystem::CreateDir`: resolve, then the recursive or plain
native create-directory primitive. -/
def CreateDir (w : World) (path : String) (recursive : Bool) :
    Except Error Unit × List ExtCall :=
  match w.fromString path with
  | Except.error e => (Except.error e, [ExtCall.resolve path])
  | Except.ok fn =>
    if recursive then
      (w.createDirTree fn, [ExtCall.resolve path, ExtCall.createDirTree fn])
    else
      (w.createDir fn, [ExtCall.resolve path, ExtCall.createDir fn])

/-- `LocalFileSystem::DeleteDir`: resolve, run `DeleteDirTree`; a primitive
failure propagates; otherwise success exactly when something was deleted,
else `IOError` "Directory does not exist: '<path>'". -/
def DeleteDir (w : World) (path : String) :
    Except Error Unit × List ExtCall :=
  match w.fromString path with
  | Except.error e => (Except.error e, [ExtCall.resolve path])
  | Except.ok fn =>
    match w.deleteDirTree fn with
    | Except.error e =>
      (Except.error e, [ExtCall.resolve path, ExtCall.deleteDirTree fn])
    | Except.ok deleted =>
      if deleted then
        (Except.ok (), [ExtCall.resolve path, ExtCall.deleteDirTree fn])
      else
        (Except.error { code := StatusCode.IOError,
                        msg := "Directory does not exist: '" ++ path ++ "'" },
         [ExtCall.resolve path, ExtCall.deleteDirTree fn])

/-- `LocalFileSystem::DeleteDirContents`: same contract as `DeleteDir` with
the `DeleteDirContents` primitive. -/
def DeleteDirContents (w : World) (path : String) :
    Except Error Unit × List ExtCall :=
  match w.fromString path with
  | Except.error e => (Except.error e, [ExtCall.resolve path])
  | Except.ok fn =>
    match w.deleteDirContents fn with
    | Except.error e =>
      (Except.error e, [ExtCall.resolve path, ExtCall.deleteDirContents fn])
    | Except.ok deleted =>
      if deleted then
        (Except.ok (), [ExtCall.resolve path, ExtCall.deleteDirContents fn])
      else
        (Except.error { code := StatusCode.IOError,
                        msg := "Directory does not exist: '" ++ path ++ "'" },
         [ExtCall.resolve path, ExtCall.deleteDirContents fn])

/-- `LocalFileSystem::DeleteFile`: same shape with the `DeleteFile`
primitive and the message "File does not exist: '<path>'". -/
def DeleteFile (w : World) (path : String) :
    Except Error Unit × List ExtCall :=
  match w.fromString path with
  | Except.error e => (Except.error e, [ExtCall.resolve path])
  | Except.ok fn =>
    match w.deleteFile fn with
    | Except.error e =>
      (Except.error e, [ExtCall.resolve path, ExtCall.deleteFile fn])
    | Except.ok deleted =>
      if deleted then
        (Except.ok (), [ExtCall.resolve path, ExtCall.deleteFile fn])
      else
        (Except.error { code := StatusCode.IOError,
                        msg := "File does not exist: '" ++ path ++ "'" },
         [ExtCall.resolve path, ExtCall.deleteFile fn])

/-- `LocalFileSystem::Move` (POSIX): resolve both paths, then the native
`rename`; a rename failure becomes `IOError` "Failed renaming '<src>' to
'<dest>': <errno message>". -/
def Move (w : World) (src dest : String) :
    Except Error Unit × List ExtCall :=
  match w.fromString src with
  | Except.error e => (Except.error e, [ExtCall.resolve src])
  | Except.ok sfn =>
    match w.fromString dest with
    | Except.error e => (Except.error e, [ExtCall.resolve src, ExtCall.resolve dest])
    | Except.ok dfn =>
      match w.rename sfn dfn with
      | Except.error e =>
        (Except.error
          (ErrnoToStatus w.errnoMsg
            ("Failed renaming '" ++ sfn ++ "' to '" ++ dfn ++ "': ") e),
         [ExtCall.resolve src, ExtCall.resolve dest, ExtCall.rename sfn dfn])
      | Except.ok _ =>
        (Except.ok (),
         [ExtCall.resolve src, ExtCall.resolve dest, ExtCall.rename sfn dfn])

/-- `OpenInputStreamGeneric`: no path resolution — the portable path is
handed directly to the memory-mapped or buffered reader collaborator,
according to `use_mmap`.  The returned `Nat` is an opaque stream handle. -/
def OpenInputStreamGeneric (w : World) (options : LocalFileSystemOptions)
    (path : String) : Except Error Nat × List ExtCall :=
  if options.use_mmap then
    (w.mmapOpen path, [ExtCall.mmapOpen path])
  else
    (w.readableOpen path, [ExtCall.readableOpen path])

/-- `LocalFileSystem::OpenInputStream`. -/
def OpenInputStream (w : World) (options : LocalFileSystemOptions)
    (path : String) : Except Error Nat × List ExtCall :=
  OpenInputStreamGeneric w options path

/-- `LocalFileSystem::OpenInputFile`. -/
def OpenInputFile (w : World) (options : LocalFileSystemOptions)
    (path : String) : Except Error Nat × List ExtCall :=
  OpenInputStreamGeneric w options path

/-- `OpenOutputStreamGeneric`: resolve the path, open a writable file
descriptor (`FileOpenWritable` with `write_only = true`), then construct
the output stream on that descriptor; if stream construction fails the
descriptor is closed before the failure is returned. -/
def OpenOutputStreamGeneric (w : World) (path : String)
    (truncate append : Bool) : Except Error Nat × List ExtCall :=
  match w.fromString path with
  | Except.error e => (Except.error e, [ExtCall.resolve path])
  | Except.ok fn =>
    match w.fileOpenWritable fn true truncate append with
    | Except.error e =>
      (Except.error e,
       [ExtCall.resolve path, ExtCall.fileOpenWritable fn true truncate append])
    | Except.ok fd =>
      match w.fileOutputStreamOpen fd with
      | Except.error st =>
        (Except.error st,
         [ExtCall.resolve path, ExtCall.fileOpenWritable fn true truncate append,
          ExtCall.fileOutputStreamOpen fd, ExtCall.fileClose fd])
      | Except.ok stream =>
        (Except.ok stream,
         [ExtCall.resolve path, ExtCall.fileOpenWritable fn true truncate append,
          ExtCall.fileOutputStreamOpen fd])

/-- `LocalFileSystem::OpenOutputStream`: truncate, no append. -/
def OpenOutputStream (w : World) (path : String) :
    Except Error Nat × List ExtCall :=
  OpenOutputStreamGeneric w path true false

/-- `LocalFileSystem::OpenAppendStream`: no truncate, append. -/
def OpenAppendStream (w : World) (path : String) :
    Except Error Nat × List ExtCall :=
  OpenOutputStreamGeneric w path false true

/-- `LocalFileSystem::CopyFile` (POSIX): resolve both paths; if they
resolve to the same native path, succeed immediately (no further external
call); otherwise open the source for input and the destination for output
(each facade call re-resolving its own path), copy in 1 MiB chunks, close
the output stream, and finish with the input stream's close status. -/
def CopyFile (w : World) (options : LocalFileSystemOptions) (src dest : String) :
    Except Error Unit × List ExtCall :=
  match w.fromString src with
  | Except.error e => (Except.error e, [ExtCall.resolve src])
  | Except.ok sfn =>
    match w.fromString dest with
    | Except.error e => (Except.error e, [ExtCall.resolve src, ExtCall.resolve dest])
    | Except.ok dfn =>
      if sfn = dfn then
        (Except.ok (), [ExtCall.resolve src, ExtCall.resolve dest])
      else
        let head := [ExtCall.resolve src, ExtCall.resolve dest]
        match OpenInputStream w options src with
        | (Except.error e, t) => (Except.error e, head ++ t)
        | (Except.ok is, t) =>
          match OpenOutputStream w dest with
          | (Except.error e, t2) => (Except.error e, head ++ t ++ t2)
          | (Except.ok os, t2) =>
            match w.copyStream is os (1024 * 1024) with
            | Except.error e =>
              (Except.error e,
               head ++ t ++ t2 ++ [ExtCall.copyStream is os (1024 * 1024)])
            | Except.ok _ =>
              match w.outputStreamClose os with
              | Except.error e =>
                (Except.error e,
                 head ++ t ++ t2 ++ [ExtCall.copyStream is os (1024 * 1024),
                                     ExtCall.outputStreamClose os])
              | Except.ok _ =>
                (w.inputStreamClose is,
                 head ++ t ++ t2 ++ [ExtCall.copyStream is os (1024 * 1024),
                                     ExtCall.outputStreamClose os,
                                     ExtCall.inputStreamClose is])

end LocalFileSystem

/-! Concrete worlds used to instantiate the theorems below. -/

/-- A simple concrete world: the resolver is the identity (as on POSIX,
where the native representation is the same byte string), every primitive
succeeds, and every queried path is a missing entity (`ENOENT`). -/
def baseWorld : World where
  fromString := fun p => Except.ok p
  join := fun a b => a ++ "/" ++ b
  statCall := fun _ => Except.error Errno.ENOENT
  errnoMsg := fun _ => ": No such file or directory"
  listDir := fun _ => Except.ok []
  fileExists := fun _ => Except.ok false
  createDir := fun _ => Except.ok ()
  createDirTree := fun _ => Except.ok ()
  deleteDirTree := fun _ => Except.ok true
  deleteDirContents := fun _ => Except.ok true
  deleteFile := fun _ => Except.ok true
  rename := fun _ _ => Except.ok ()
  mmapOpen := fun _ => Except.ok 1
  readableOpen := fun _ => Except.ok 2
  fileOpenWritable := fun _ _ _ _ => Except.ok 3
  fileOutputStreamOpen := fun _ => Except.ok 4
  copyStream := fun _ _ _ => Except.ok ()
  outputStreamClose := fun _ => Except.ok ()
  inputStreamClose := fun _ => Except.ok ()

/-! Theorems. -/

/-- C9: if `src` and `dest` resolve to the same native path, `CopyFile`
succeeds as a no-op — the trace holds the two Path Resolver calls and no
read, write, or other filesystem call; in particular `CopyFile p p`
succeeds for every resolvable `p`. -/
theorem copyFile_same_native_noop (w : World) (options : LocalFileSystemOptions)
    (src dest sfn dfn : String)
    (hs : w.fromString src = Except.ok sfn)
    (hd : w.fromString dest = Except.ok dfn)
    (heq : sfn = dfn) :
    LocalFileSystem.CopyFile w options src dest =
      (Except.ok (), [ExtCall.resolve src, ExtCall.resolve dest]) := by
  simp [LocalFileSystem.CopyFile, hs, hd, heq]

/-- Witness for C9: `CopyFile "/tmp/x" "/tmp/x"` in the identity-resolver
world succeeds having performed only the two resolver calls. -/
theorem copyFile_same_native_noop_witness :
    LocalFileSystem.CopyFile baseWorld { use_mmap := true } "/tmp/x" "/tmp/x" =
      (Except.ok (), [ExtCall.resolve "/tmp/x", ExtCall.resolve "/tmp/x"]) :=
  copyFile_same_native_noop baseWorld { use_mmap := true } "/tmp/x" "/tmp/x"
    "/tmp/x" "/tmp/x" rfl rfl rfl

/-- C8: for a resolvable path, each delete operation fails with the
documented "... does not exist" `IOError` naming the portable path exactly
when its native primitive reports that nothing existed to delete, and
succeeds exactly when something was deleted; by contrast a stat on a path
whose entity is missing (`ENOENT`) is a success value (`NonExistent`). -/
theorem delete_ops_absence_contract (w : World) (p fn : String)
    (hres : w.fromString p = Except.ok fn) :
    (w.deleteDirTree fn = Except.ok false →
       (LocalFileSystem.DeleteDir w p).1 =
         Except.error { code := StatusCode.IOError,
                        msg := "Directory does not exist: '" ++ p ++ "'" }) ∧
    (w.deleteDirTree fn = Except.ok true →
       (LocalFileSystem.DeleteDir w p).1 = Except.ok ()) ∧
    (w.deleteDirContents fn = Except.ok false →
       (LocalFileSystem.DeleteDirContents w p).1 =
         Except.error { code := StatusCode.IOError,
                        msg := "Directory does not exist: '" ++ p ++ "'" }) ∧
    (w.deleteDirContents fn = Except.ok true →
       (LocalFileSystem.DeleteDirContents w p).1 = Except.ok ()) ∧
    (w.deleteFile fn = Except.ok false →
       (LocalFileSystem.DeleteFile w p).1 =
         Except.error { code := StatusCode.IOError,
                        msg := "File does not exist: '" ++ p ++ "'" }) ∧
    (w.deleteFile fn = Except.ok true →
       (LocalFileSystem.DeleteFile w p).1 = Except.ok ()) ∧
    (w.statCall fn = Except.error Errno.ENOENT →
       (LocalFileSystem.GetTargetStats w p).1 =
         Except.ok { path := fn, type := FileType.NonExistent,
                     size := none, mtime := none }) := by
  refine ⟨fun h => ?_, fun h => ?_, fun h => ?_, fun h => ?_, fun h => ?_,
          fun h => ?_, fun h => ?_⟩ <;>
    simp [LocalFileSystem.DeleteDir, LocalFileSystem.DeleteDirContents,
          LocalFileSystem.DeleteFile, LocalFileSystem.GetTargetStats,
          StatFile, hres, h]

/-- Witness for C8: in a world where nothing exists, deleting the directory
"/gone" fails with the documented message while statting it succeeds with
`NonExistent`. -/
theorem delete_ops_absence_contract_witness :
    (LocalFileSystem.DeleteDir
        { baseWorld with deleteDirTree := fun _ => Except.ok false } "/gone").1 =
      Except.error { code := StatusCode.IOError,
                     msg := "Directory does not exist: '/gone'" } ∧
    (LocalFileSystem.GetTargetStats
        { baseWorld with deleteDirTree := fun _ => Except.ok false } "/gone").1 =
      Except.ok { path := "/gone", type := FileType.NonExistent,
                  size := none, mtime := none } :=
  ⟨by
    have h := (delete_ops_absence_contract
      { baseWorld with deleteDirTree := fun _ => Except.ok false }
      "/gone" "/gone" rfl).1 rfl
    simpa using h,
   by
    have h := (delete_ops_absence_contract
      { baseWorld with deleteDirTree := fun _ => Except.ok false }
      "/gone" "/gone" rfl).2.2.2.2.2.2 rfl
    simpa using h⟩

/-- C5: for a resolvable path whose native stat fails, `GetTargetStats`
(StatOne) succeeds with a `NonExistent` record carrying both sentinels and
the queried path when the errno is `ENOENT`, `ENOTDIR` (missing
intermediate component) or `ELOOP` (excessive symlink indirection), and
fails with an `IOError` embedding the path and the native error text for
every other errno.  The resolver hypothesis `fromString p = ok p` reflects
POSIX, where the native form is the same byte string, so the record's path
is the portable input. -/
theorem statOne_nonexistence_policy (w : World) (p : String) (e : Errno)
    (hres : w.fromString p = Except.ok p)
    (hstat : w.statCall p = Except.error e) :
    ((e = Errno.ENOENT ∨ e = Errno.ENOTDIR ∨ e = Errno.ELOOP) →
       (LocalFileSystem.GetTargetStats w p).1 =
         Except.ok { path := p, type := FileType.NonExistent,
                     size := none, mtime := none }) ∧
    (¬(e = Errno.ENOENT ∨ e = Errno.ENOTDIR ∨ e = Errno.ELOOP) →
       (LocalFileSystem.GetTargetStats w p).1 =
         Except.error { code := StatusCode.IOError,
                        msg := "Failed stat()ing path '" ++ p ++ "'"
                               ++ w.errnoMsg e }) := by
  constructor
  · intro h
    simp [LocalFileSystem.GetTargetStats, StatFile, hres, hstat, h]
  · intro h
    simp [LocalFileSystem.GetTargetStats, StatFile, ErrnoToStatus, hres, hstat, h]

/-- Witness for C5: a stat failing with `ELOOP` yields a successful
`NonExistent` record, and one failing with `EACCES` yields the `IOError`
with the documented message. -/
theorem statOne_nonexistence_policy_witness :
    (LocalFileSystem.GetTargetStats
        { baseWorld with statCall := fun _ => Except.error Errno.ELOOP } "/a").1 =
      Except.ok { path := "/a", type := FileType.NonExistent,
                  size := none, mtime := none } ∧
    (LocalFileSystem.GetTargetStats
        { baseWorld with statCall := fun _ => Except.error Errno.EACCES } "/a").1 =
      Except.error { code := StatusCode.IOError,
                     msg := "Failed stat()ing path '/a': No such file or directory" } :=
  ⟨(statOne_nonexistence_policy
      { baseWorld with statCall := fun _ => Except.error Errno.ELOOP }
      "/a" Errno.ELOOP rfl rfl).1 (Or.inr (Or.inr rfl)),
   by
    have h := (statOne_nonexistence_policy
      { baseWorld with statCall := fun _ => Except.error Errno.EACCES }
      "/a" Errno.EACCES rfl rfl).2 (by simp)
    simpa using h⟩

/-- C10: every record successfully produced by the Native Stat Adapter
carries the portable form of the queried path: the POSIX `StatFile` sets
`path` to its (byte-identical) input in every success branch, the Windows
`StatFile` sets it to `NativeToString` of its input, and hence StatOne on a
path the resolver maps to itself returns a record whose `path` is the
input. -/
theorem stat_path_field_is_input :
    (∀ (w : World) (fn : String) (st : FileStats),
        (StatFile w fn).1 = Except.ok st → st.path = fn) ∧
    (∀ (winStat : String → WinStatOutcome) (winMsg : WinError → String)
        (toPortable : String → String) (p : String) (st : FileStats),
        StatFileWin winStat winMsg toPortable p = Except.ok st →
        st.path = toPortable p) ∧
    (∀ (w : World) (p : String) (st : FileStats),
        w.fromString p = Except.ok p →
        (LocalFileSystem.GetTargetStats w p).1 = Except.ok st → st.path = p) := by
  have hposix : ∀ (w : World) (fn : String) (st : FileStats),
      (StatFile w fn).1 = Except.ok st → st.path = fn := by
    intro w fn st h
    unfold StatFile at h
    cases hc : w.statCall fn with
    | error e =>
      rw [hc] at h
      by_cases he : e = Errno.ENOENT ∨ e = Errno.ENOTDIR ∨ e = Errno.ELOOP
      · simp [he] at h
        simp [← h]
      · simp [he] at h
    | ok s =>
      rw [hc] at h
      simp at h
      simp [← h]
  refine ⟨hposix, ?_, ?_⟩
  · intro winStat winMsg toPortable p st h
    unfold StatFileWin at h
    cases hc : winStat p with
    | openFailed err =>
      rw [hc] at h
      by_cases he : err = WinError.ERROR_FILE_NOT_FOUND ∨
          err = WinError.ERROR_PATH_NOT_FOUND
      · simp [he] at h
        simp [← h]
      · simp [he] at h
    | infoFailed err =>
      rw [hc] at h
      simp at h
    | ok info =>
      rw [hc] at h
      simp at h
      simp [← h]
  · intro w p st hres h
    unfold LocalFileSystem.GetTargetStats at h
    rw [hres] at h
    exact hposix w p st h

/-- Witness for C10: statting the missing path "/w" in the identity world
returns a record whose path is "/w". -/
theorem stat_path_field_is_input_witness :
    ({ path := "/w", type := FileType.NonExistent,
       size := none, mtime := none } : FileStats).path = "/w" :=
  stat_path_field_is_input.2.2 baseWorld "/w"
    { path := "/w", type := FileType.NonExistent, size := none, mtime := none }
    rfl rfl

/-- C6: when the raw listing of a directory fails: with
`allow_non_existent` set, an I/O-class failure, and a `FileExists` re-check
showing the directory gone, `StatSelector` succeeds with no entries; with
`allow_non_existent` unset, or a non-I/O failure, or the directory still
existing, the original listing failure is propagated unchanged. -/
theorem statSelector_listing_failure (w : World) (sel : Selector) (dir : String)
    (d : Int) (status : Error) (hls : w.listDir dir = Except.error status) :
    (sel.allow_non_existent = true → status.code = StatusCode.IOError →
       w.fileExists dir = Except.ok false →
       StatSelector w sel dir d =
         (Except.ok [], [ExtCall.listDir dir, ExtCall.fileExists dir])) ∧
    (sel.allow_non_existent = false →
       StatSelector w sel dir d = (Except.error status, [ExtCall.listDir dir])) ∧
    (status.code ≠ StatusCode.IOError →
       StatSelector w sel dir d = (Except.error status, [ExtCall.listDir dir])) ∧
    (sel.allow_non_existent = true → status.code = StatusCode.IOError →
       w.fileExists dir = Except.ok true →
       StatSelector w sel dir d =
         (Except.error status, [ExtCall.listDir dir, ExtCall.fileExists dir])) := by
  refine ⟨fun h1 h2 h3 => ?_, fun h1 => ?_, fun h1 => ?_, fun h1 h2 h3 => ?_⟩
  · simp [StatSelector, hls, h1, h2, h3]
  · simp [StatSelector, hls, h1]
  · simp [StatSelector, hls, h1]
  · simp [StatSelector, hls, h1, h2, h3]

/-- Witness for C6: a vanished directory is tolerated (empty success) under
`allow_non_existent`, and the same listing failure is propagated unchanged
without it. -/
theorem statSelector_listing_failure_witness :
    StatSelector
        { baseWorld with
            listDir := fun _ => Except.error { code := StatusCode.IOError,
                                               msg := "listing failed" } }
        { base_dir := "/d", allow_non_existent := true, recursive := true,
          max_recursion := 5 } "/d" 0 =
      (Except.ok [], [ExtCall.listDir "/d", ExtCall.fileExists "/d"]) ∧
    StatSelector
        { baseWorld with
            listDir := fun _ => Except.error { code := StatusCode.IOError,
                                               msg := "listing failed" } }
        { base_dir := "/d", allow_non_existent := false, recursive := true,
          max_recursion := 5 } "/d" 0 =
      (Except.error { code := StatusCode.IOError, msg := "listing failed" },
       [ExtCall.listDir "/d"]) :=
  ⟨(statSelector_listing_failure
      { baseWorld with
          listDir := fun _ => Except.error { code := StatusCode.IOError,
                                             msg := "listing failed" } }
      { base_dir := "/d", allow_non_existent := true, recursive := true,
        max_recursion := 5 } "/d" 0
      { code := StatusCode.IOError, msg := "listing failed" } rfl).1 rfl rfl rfl,
   (statSelector_listing_failure
      { baseWorld with
          listDir := fun _ => Except.error { code := StatusCode.IOError,
                                             msg := "listing failed" } }
      { base_dir := "/d", allow_non_existent := false, recursive := true,
        max_recursion := 5 } "/d" 0
      { code := StatusCode.IOError, msg := "listing failed" } rfl).2.1 rfl⟩

/-- C3 counterexample: the missing-directory handling (empty success under
`allow_non_existent`, propagated failure otherwise) is performed inside the
recursive `StatSelector` routine itself — here invoked directly at nesting
depth 3, not from the top-level facade — while the top-level
`GetTargetStats(Selector)` produces exactly the resolver call followed by
`StatSelector`'s own calls and result, with no handling of its own. -/
theorem statSelector_handles_missing_base_dir_itself :
    StatSelector
        { baseWorld with
            listDir := fun _ => Except.error { code := StatusCode.IOError,
                                               msg := "gone" } }
        { base_dir := "/d", allow_non_existent := true, recursive := false,
          max_recursion := 0 } "/d" 3 =
      (Except.ok [], [ExtCall.listDir "/d", ExtCall.fileExists "/d"]) ∧
    StatSelector
        { baseWorld with
            listDir := fun _ => Except.error { code := StatusCode.IOError,
                                               msg := "gone" } }
        { base_dir := "/d", allow_non_existent := false, recursive := false,
          max_recursion := 0 } "/d" 3 =
      (Except.error { code := StatusCode.IOError, msg := "gone" },
       [ExtCall.listDir "/d"]) ∧
    LocalFileSystem.GetTargetStatsSelector
        { baseWorld with
            listDir := fun _ => Except.error { code := StatusCode.IOError,
                                               msg := "gone" } }
        { base_dir := "/d", allow_non_existent := true, recursive := false,
          max_recursion := 0 } =
      (Except.ok [],
       [ExtCall.resolve "/d", ExtCall.listDir "/d", ExtCall.fileExists "/d"]) := by
  refine ⟨?_, ?_, ?_⟩ <;>
    simp [StatSelector, LocalFileSystem.GetTargetStatsSelector, baseWorld]

/-- C3 amended: the top-level `GetTargetStats(Selector)` merely resolves
`base_dir` and delegates to `StatSelector` at depth 0 — its result and
trace are exactly the delegated ones — and the special handling of a
missing directory is performed inside the recursive `StatSelector` routine,
at every nesting depth alike. -/
theorem statSelector_missing_base_dir_delegation (w : World) (sel : Selector)
    (fn : String) (hres : w.fromString sel.base_dir = Except.ok fn) :
    LocalFileSystem.GetTargetStatsSelector w sel =
      ((StatSelector w sel fn 0).1,
       ExtCall.resolve sel.base_dir :: (StatSelector w sel fn 0).2) ∧
    (∀ (d : Int) (status : Error),
       w.listDir fn = Except.error status →
       sel.allow_non_existent = true → status.code = StatusCode.IOError →
       w.fileExists fn = Except.ok false →
       StatSelector w sel fn d = (Except.ok [],
         [ExtCall.listDir fn, ExtCall.fileExists fn])) ∧
    (∀ (d : Int) (status : Error),
       w.listDir fn = Except.error status →
       sel.allow_non_existent = false →
       StatSelector w sel fn d = (Except.error status, [ExtCall.listDir fn])) := by
  refine ⟨?_, fun d status h1 h2 h3 h4 => ?_, fun d status h1 h2 => ?_⟩
  · simp [LocalFileSystem.GetTargetStatsSelector, hres]
  · simp [StatSelector, h1, h2, h3, h4]
  · simp [StatSelector, h1, h2]

/-- Witness for the amended C3: in a world whose listing of the missing
"/d" fails, the facade call returns the delegated empty success. -/
theorem statSelector_missing_base_dir_delegation_witness :
    LocalFileSystem.GetTargetStatsSelector
        { baseWorld with
            listDir := fun _ => Except.error { code := StatusCode.IOError,
                                               msg := "gone" } }
        { base_dir := "/d", allow_non_existent := true, recursive := true,
          max_recursion := 7 } =
      ((StatSelector
          { baseWorld with
              listDir := fun _ => Except.error { code := StatusCode.IOError,
                                                 msg := "gone" } }
          { base_dir := "/d", allow_non_existent := true, recursive := true,
            max_recursion := 7 } "/d" 0).1,
       ExtCall.resolve "/d" ::
         (StatSelector
            { baseWorld with
                listDir := fun _ => Except.error { code := StatusCode.IOError,
                                                   msg := "gone" } }
            { base_dir := "/d", allow_non_existent := true, recursive := true,
              max_recursion := 7 } "/d" 0).2) :=
  (statSelector_missing_base_dir_delegation
    { baseWorld with
        listDir := fun _ => Except.error { code := StatusCode.IOError,
                                           msg := "gone" } }
    { base_dir := "/d", allow_non_existent := true, recursive := true,
      max_recursion := 7 } "/d" rfl).1

/-- C2 counterexample: the Native Stat Adapter can return a record of type
`Unknown` whose mtime is a meaningful (non-sentinel) value — `StatToFileStat`
sets the mtime unconditionally for every existing entity — contradicting
"mtime holds a meaningful value if and only if type is File or Directory". -/
theorem statFile_unknown_carries_mtime_counterexample :
    (StatFile
        { baseWorld with
            statCall := fun _ =>
              Except.ok { isReg := false, isDir := false, st_size := 0,
                          mtimeSec := 5, mtimeNsec := 6 } } "/sock").1 =
      Except.ok { path := "/sock", type := FileType.Unknown, size := none,
                  mtime := some 5000000006 } ∧
    FileType.Unknown ≠ FileType.File ∧
    FileType.Unknown ≠ FileType.Directory ∧
    some (5000000006 : Int) ≠ none := by
  refine ⟨?_, by simp, by simp, by simp⟩
  simp [StatFile, StatToFileStat, ToTimePoint, baseWorld]

/-- C2 amended: every record successfully produced by the Native Stat
Adapter (POSIX or Windows) has a meaningful size exactly when its type is
`File`, and a meaningful mtime exactly when its type is not `NonExistent` —
`File`, `Directory` and `Unknown` all carry an mtime. -/
theorem fileStats_sentinel_invariant :
    (∀ (w : World) (p : String) (st : FileStats),
        (StatFile w p).1 = Except.ok st →
        (st.size ≠ none ↔ st.type = FileType.File) ∧
        (st.mtime ≠ none ↔ st.type ≠ FileType.NonExistent)) ∧
    (∀ (winStat : String → WinStatOutcome) (winMsg : WinError → String)
        (toPortable : String → String) (p : String) (st : FileStats),
        StatFileWin winStat winMsg toPortable p = Except.ok st →
        (st.size ≠ none ↔ st.type = FileType.File) ∧
        (st.mtime ≠ none ↔ st.type ≠ FileType.NonExistent)) := by
  constructor
  · intro w p st h
    unfold StatFile at h
    cases hc : w.statCall p with
    | error e =>
      rw [hc] at h
      by_cases he : e = Errno.ENOENT ∨ e = Errno.ENOTDIR ∨ e = Errno.ELOOP
      · simp [he] at h
        simp [← h]
      · simp [he] at h
    | ok s =>
      rw [hc] at h
      simp at h
      subst h
      unfold StatToFileStat
      by_cases hr : s.isReg <;> by_cases hd : s.isDir <;> simp [hr, hd]
  · intro winStat winMsg toPortable p st h
    unfold StatFileWin at h
    cases hc : winStat p with
    | openFailed err =>
      rw [hc] at h
      by_cases he : err = WinError.ERROR_FILE_NOT_FOUND ∨
          err = WinError.ERROR_PATH_NOT_FOUND
      · simp [he] at h
        simp [← h]
      · simp [he] at h
    | infoFailed err =>
      rw [hc] at h
      simp at h
    | ok info =>
      rw [hc] at h
      simp at h
      subst h
      unfold FileInformationToFileStat
      by_cases hd : info.dwFileAttributes &&& FILE_ATTRIBUTE_DIRECTORY ≠ 0 <;>
        simp [hd]

/-- Witness for the amended C2: the `Unknown` record for a socket satisfies
the amended invariant. -/
theorem fileStats_sentinel_invariant_witness :
    (({ path := "/sock", type := FileType.Unknown, size := none,
        mtime := some 5000000006 } : FileStats).size ≠ none ↔
      ({ path := "/sock", type := FileType.Unknown, size := none,
         mtime := some 5000000006 } : FileStats).type = FileType.File) ∧
    (({ path := "/sock", type := FileType.Unknown, size := none,
        mtime := some 5000000006 } : FileStats).mtime ≠ none ↔
      ({ path := "/sock", type := FileType.Unknown, size := none,
         mtime := some 5000000006 } : FileStats).type ≠ FileType.NonExistent) :=
  fileStats_sentinel_invariant.1
    { baseWorld with
        statCall := fun _ =>
          Except.ok { isReg := false, isDir := false, st_size := 0,
                      mtimeSec := 5, mtimeNsec := 6 } } "/sock"
    { path := "/sock", type := FileType.Unknown, size := none,
      mtime := some 5000000006 }
    (by simp [StatFile, StatToFileStat, ToTimePoint, baseWorld])

/-- C4 counterexample: on Windows an existing entity that is neither a
regular file nor a directory (here one carrying only the device attribute)
is mapped by `FileInformationToFileStat` to type `File`, not `Unknown` —
the Windows adapter tests only the directory attribute. -/
theorem win_nonregular_maps_to_file_counterexample :
    FILE_ATTRIBUTE_DEVICE &&& FILE_ATTRIBUTE_DIRECTORY = 0 ∧
    (FileInformationToFileStat
        { dwFileAttributes := FILE_ATTRIBUTE_DEVICE, nFileSizeHigh := 0,
          nFileSizeLow := 0,
          ftLastWriteTime := { dwHighDateTime := 0, dwLowDateTime := 0 } }).type =
      FileType.File ∧
    FileType.File ≠ FileType.Unknown := by
  refine ⟨by decide, by decide, by simp⟩

/-- C4 amended: on POSIX the adapter maps a regular file to `File` with the
reported byte length, a directory to `Directory` with the no-size sentinel
and anything else to `Unknown` with the no-size sentinel; on Windows only
the directory attribute is tested, so a directory maps to `Directory` with
the no-size sentinel and every other entity — devices included — maps to
`File` with the recombined reported byte length. -/
theorem stat_type_mapping :
    (∀ s : UnixStat,
        (s.isReg = true →
           (StatToFileStat s).type = FileType.File ∧
           (StatToFileStat s).size = some s.st_size) ∧
        (s.isReg = false → s.isDir = true →
           (StatToFileStat s).type = FileType.Directory ∧
           (StatToFileStat s).size = none) ∧
        (s.isReg = false → s.isDir = false →
           (StatToFileStat s).type = FileType.Unknown ∧
           (StatToFileStat s).size = none)) ∧
    (∀ info : ByHandleFileInformation,
        (info.dwFileAttributes &&& FILE_ATTRIBUTE_DIRECTORY ≠ 0 →
           (FileInformationToFileStat info).type = FileType.Directory ∧
           (FileInformationToFileStat info).size = none) ∧
        (info.dwFileAttributes &&& FILE_ATTRIBUTE_DIRECTORY = 0 →
           (FileInformationToFileStat info).type = FileType.File ∧
           (FileInformationToFileStat info).size =
             some ((info.nFileSizeHigh : Int) * 4294967296 +
                   (info.nFileSizeLow : Int)))) := by
  constructor
  · intro s
    refine ⟨fun hr => ?_, fun hr hd => ?_, fun hr hd => ?_⟩
    · simp [StatToFileStat, hr]
    · simp [StatToFileStat, hr, hd]
    · simp [StatToFileStat, hr, hd]
  · intro info
    refine ⟨fun hd => ?_, fun hd => ?_⟩ <;>
      simp [FileInformationToFileStat, hd]

/-- Witness for the amended C4: a concrete regular file of 42 bytes maps to
`File` with size 42. -/
theorem stat_type_mapping_witness :
    (StatToFileStat { isReg := true, isDir := false, st_size := 42,
                      mtimeSec := 1, mtimeNsec := 2 }).type = FileType.File ∧
    (StatToFileStat { isReg := true, isDir := false, st_size := 42,
                      mtimeSec := 1, mtimeNsec := 2 }).size = some 42 :=
  (stat_type_mapping.1
    { isReg := true, isDir := false, st_size := 42,
      mtimeSec := 1, mtimeNsec := 2 }).1 rfl

/-- C1 counterexample: `OpenInputStream` and `OpenInputFile` never consult
the Path Resolver — in a world whose resolver rejects every path, both
succeed, handing the unconverted portable path straight to the stream
collaborator, instead of returning the invalid-path error. -/
theorem openInput_skips_resolver_counterexample :
    ({ baseWorld with
         fromString := fun _ =>
           Except.error { code := StatusCode.Invalid,
                          msg := "invalid path" } } : World).fromString "p" =
      Except.error { code := StatusCode.Invalid, msg := "invalid path" } ∧
    LocalFileSystem.OpenInputStream
        { baseWorld with
            fromString := fun _ =>
              Except.error { code := StatusCode.Invalid, msg := "invalid path" } }
        { use_mmap := true } "p" =
      (Except.ok 1, [ExtCall.mmapOpen "p"]) ∧
    LocalFileSystem.OpenInputFile
        { baseWorld with
            fromString := fun _ =>
              Except.error { code := StatusCode.Invalid, msg := "invalid path" } }
        { use_mmap := false } "p" =
      (Except.ok 2, [ExtCall.readableOpen "p"]) := by
  refine ⟨rfl, ?_, ?_⟩ <;>
    simp [LocalFileSystem.OpenInputStream, LocalFileSystem.OpenInputFile,
          LocalFileSystem.OpenInputStreamGeneric, baseWorld]

/-- C1 amended: every facade operation except `OpenInputStream` and
`OpenInputFile` resolves its portable path(s) via the Path Resolver before
any filesystem work, and on a resolution failure returns that error with a
trace holding only the resolver call(s) — no filesystem work.
`OpenInputStream`/`OpenInputFile` instead pass the portable path directly
to the stream collaborator without consulting the Path Resolver. -/
theorem facade_resolves_first (w : World) (e : Error) :
    (∀ p, w.fromString p = Except.error e →
       LocalFileSystem.GetTargetStats w p =
         (Except.error e, [ExtCall.resolve p])) ∧
    (∀ sel : Selector, w.fromString sel.base_dir = Except.error e →
       LocalFileSystem.GetTargetStatsSelector w sel =
         (Except.error e, [ExtCall.resolve sel.base_dir])) ∧
    (∀ p r, w.fromString p = Except.error e →
       LocalFileSystem.CreateDir w p r = (Except.error e, [ExtCall.resolve p])) ∧
    (∀ p, w.fromString p = Except.error e →
       LocalFileSystem.DeleteDir w p = (Except.error e, [ExtCall.resolve p])) ∧
    (∀ p, w.fromString p = Except.error e →
       LocalFileSystem.DeleteDirContents w p =
         (Except.error e, [ExtCall.resolve p])) ∧
    (∀ p, w.fromString p = Except.error e →
       LocalFileSystem.DeleteFile w p = (Except.error e, [ExtCall.resolve p])) ∧
    (∀ src dest, w.fromString src = Except.error e →
       LocalFileSystem.Move w src dest = (Except.error e, [ExtCall.resolve src])) ∧
    (∀ src dest sfn, w.fromString src = Except.ok sfn →
       w.fromString dest = Except.error e →
       LocalFileSystem.Move w src dest =
         (Except.error e, [ExtCall.resolve src, ExtCall.resolve dest])) ∧
    (∀ options src dest, w.fromString src = Except.error e →
       LocalFileSystem.CopyFile w options src dest =
         (Except.error e, [ExtCall.resolve src])) ∧
    (∀ options src dest sfn, w.fromString src = Except.ok sfn →
       w.fromString dest = Except.error e →
       LocalFileSystem.CopyFile w options src dest =
         (Except.error e, [ExtCall.resolve src, ExtCall.resolve dest])) ∧
    (∀ p truncate append, w.fromString p = Except.error e →
       LocalFileSystem.OpenOutputStreamGeneric w p truncate append =
         (Except.error e, [ExtCall.resolve p])) ∧
    (∀ p, w.fromString p = Except.error e →
       LocalFileSystem.OpenOutputStream w p =
         (Except.error e, [ExtCall.resolve p])) ∧
    (∀ p, w.fromString p = Except.error e →
       LocalFileSystem.OpenAppendStream w p =
         (Except.error e, [ExtCall.resolve p])) := by
  refine ⟨fun p h => ?_, fun sel h => ?_, fun p r h => ?_, fun p h => ?_,
          fun p h => ?_, fun p h => ?_, fun src dest h => ?_,
          fun src dest sfn h1 h2 => ?_, fun options src dest h => ?_,
          fun options src dest sfn h1 h2 => ?_, fun p truncate append h => ?_,
          fun p h => ?_, fun p h => ?_⟩
  · simp [LocalFileSystem.GetTargetStats, h]
  · simp [LocalFileSystem.GetTargetStatsSelector, h]
  · simp [LocalFileSystem.CreateDir, h]
  · simp [LocalFileSystem.DeleteDir, h]
  · simp [LocalFileSystem.DeleteDirContents, h]
  · simp [LocalFileSystem.DeleteFile, h]
  · simp [LocalFileSystem.Move, h]
  · simp [LocalFileSystem.Move, h1, h2]
  · simp [LocalFileSystem.CopyFile, h]
  · simp [LocalFileSystem.CopyFile, h1, h2]
  · simp [LocalFileSystem.OpenOutputStreamGeneric, h]
  · simp [LocalFileSystem.OpenOutputStream,
          LocalFileSystem.OpenOutputStreamGeneric, h]
  · simp [LocalFileSystem.OpenAppendStream,
          LocalFileSystem.OpenOutputStreamGeneric, h]

/-- Witness for the amended C1: with a resolver that rejects every path,
`DeleteDir` and `OpenOutputStream` return the invalid-path error after only
the resolver call. -/
theorem facade_resolves_first_witness :
    LocalFileSystem.DeleteDir
        { baseWorld with
            fromString := fun _ =>
              Except.error { code := StatusCode.Invalid, msg := "invalid path" } }
        "p" =
      (Except.error { code := StatusCode.Invalid, msg := "invalid path" },
       [ExtCall.resolve "p"]) ∧
    LocalFileSystem.OpenOutputStream
        { baseWorld with
            fromString := fun _ =>
              Except.error { code := StatusCode.Invalid, msg := "invalid path" } }
        "p" =
      (Except.error { code := StatusCode.Invalid, msg := "invalid path" },
       [ExtCall.resolve "p"]) :=
  ⟨(facade_resolves_first
      { baseWorld with
          fromString := fun _ =>
            Except.error { code := StatusCode.Invalid, msg := "invalid path" } }
      { code := StatusCode.Invalid, msg := "invalid path" }).2.2.2.1 "p" rfl,
   (facade_resolves_first
      { baseWorld with
          fromString := fun _ =>
            Except.error { code := StatusCode.Invalid, msg := "invalid path" } }
      { code := StatusCode.Invalid, msg := "invalid path" }).2.2.2.2.2.2.2.2.2.2.2.1
     "p" rfl⟩

/-- Spec-side reference for C7, following the spec's words: the FileStats
of exactly the direct children of a directory, in listing order — each
child joined with the parent and statted, records of type `NonExistent`
skipped, any stat failure propagated, and no descent into subdirectories. -/
def directChildrenStats (w : World) (dir_fn : String) :
    List String → Except Error (List FileStats)
  | [] => Except.ok []
  | child :: rest =>
    match (StatFile w (w.join dir_fn child)).1 with
    | Except.error e => Except.error e
    | Except.ok st =>
      match directChildrenStats w dir_fn rest with
      | Except.error e => Except.error e
      | Except.ok tail =>
        Except.ok ((if st.type ≠ FileType.NonExistent then [st] else []) ++ tail)

/-- The trace of one `StatFile` call is the single raw stat call. -/
theorem statFile_trace (w : World) (p : String) :
    (StatFile w p).2 = [ExtCall.statCall p] := by
  unfold StatFile
  rcases w.statCall p with e | s
  · by_cases he : e = Errno.ENOENT ∨ e = Errno.ENOTDIR ∨ e = Errno.ELOOP <;>
      simp [he]
  · simp

/-- `StatSelector` always lists the directory it is called on: the raw
listing call on `dir` is in its trace. -/
theorem statSelector_lists_dir (w : World) (sel : Selector) (dir : String)
    (d : Int) : ExtCall.listDir dir ∈ (StatSelector w sel dir d).2 := by
  rcases hls : w.listDir dir with status | children
  · simp only [StatSelector, hls]
    split
    · rcases w.fileExists dir with e | ex
      · simp
      · rcases ex <;> simp
    · simp
  · simp [StatSelector, hls]

/-- When descent is disabled — `recursive` unset, or the nesting depth has
reached `max_recursion` — the selector loop produces exactly the direct
children's records and performs no directory listing. -/
theorem statSelectorLoop_no_descent (w : World) (sel : Selector) (dir : String)
    (d : Int) (hnr : sel.recursive = false ∨ ¬ d < sel.max_recursion)
    (children : List String) :
    (statSelectorLoop w sel dir d children).1 =
      directChildrenStats w dir children ∧
    ∀ p, ExtCall.listDir p ∉ (statSelectorLoop w sel dir d children).2 := by
  induction children with
  | nil => simp [statSelectorLoop, directChildrenStats]
  | cons child rest ih =>
    rcases hst : StatFile w (w.join dir child) with ⟨res, t⟩
    have ht : t = [ExtCall.statCall (w.join dir child)] := by
      have h2 := statFile_trace w (w.join dir child)
      rw [hst] at h2
      exact h2
    subst ht
    cases res with
    | error e =>
      constructor
      · simp [statSelectorLoop, directChildrenStats, hst]
      · intro p
        simp [statSelectorLoop, hst]
    | ok st =>
      have hcond : ¬ (d < sel.max_recursion ∧ sel.recursive = true ∧
          st.type = FileType.Directory) := by
        rcases hnr with h | h
        · rintro ⟨_, h2, _⟩
          rw [h] at h2
          exact Bool.false_ne_true h2
        · rintro ⟨h1, _, _⟩
          exact h h1
      rcases hrest : statSelectorLoop w sel dir d rest with ⟨res2, t3⟩
      rcases ih with ⟨ih1, ih2⟩
      rw [hrest] at ih1 ih2
      constructor
      · cases res2 with
        | error e =>
          simp at ih1
          simp [statSelectorLoop, directChildrenStats, hst, hcond, hrest, ← ih1]
        | ok tail =>
          simp at ih1
          simp [statSelectorLoop, directChildrenStats, hst, hcond, hrest, ← ih1]
      · intro p
        cases res2 with
        | error e =>
          simp [statSelectorLoop, hst, hcond, hrest]
          exact fun h => (ih2 p) (by simpa [hrest] using h)
        | ok tail =>
          simp [statSelectorLoop, hst, hcond, hrest]
          exact fun h => (ih2 p) (by simpa [hrest] using h)

/-- When descent is enabled, every child of the listing that stats as a
directory is itself listed: the raw listing call on it is in the loop's
trace (given the loop ran to completion). -/
theorem statSelectorLoop_descends (w : World) (sel : Selector) (dir : String)
    (d : Int) (hrec : sel.recursive = true) (hd : d < sel.max_recursion)
    (children : List String) :
    ∀ l, (statSelectorLoop w sel dir d children).1 = Except.ok l →
      ∀ c ∈ children, ∀ st, (StatFile w (w.join dir c)).1 = Except.ok st →
        st.type = FileType.Directory →
        ExtCall.listDir (w.join dir c) ∈
          (statSelectorLoop w sel dir d children).2 := by
  induction children with
  | nil => simp
  | cons child rest ih =>
    intro l hok c hc st hcst hcty
    rcases hst : StatFile w (w.join dir child) with ⟨res, t⟩
    cases res with
    | error e =>
      rw [show statSelectorLoop w sel dir d (child :: rest) =
            (Except.error e, t) by simp [statSelectorLoop, hst]] at hok
      exact absurd hok (by simp)
    | ok sth =>
      rcases List.mem_cons.mp hc with hceq | hc
      · subst hceq
        have hty : sth = st := by
          rw [hst] at hcst
          simpa using hcst
        subst hty
        have hcond : d < sel.max_recursion ∧ sel.recursive = true ∧
            sth.type = FileType.Directory := ⟨hd, hrec, hcty⟩
        have hmem := statSelector_lists_dir w sel (w.join dir c) (d + 1)
        rcases hsub : StatSelector w sel (w.join dir c) (d + 1) with ⟨rsub, t2⟩
        rw [hsub] at hmem
        simp at hmem
        cases rsub with
        | error e =>
          simp [statSelectorLoop, hst, hcond, hsub, hmem]
        | ok sub =>
          rcases hrest : statSelectorLoop w sel dir d rest with ⟨res3, t3⟩
          cases res3 with
          | error e =>
            simp [statSelectorLoop, hst, hcond, hsub, hrest, hmem]
          | ok tail =>
            simp [statSelectorLoop, hst, hcond, hsub, hrest, hmem]
      · -- c is a later sibling: the loop on `rest` must itself have
        -- completed, so the induction hypothesis applies.
        by_cases hcond : d < sel.max_recursion ∧ sel.recursive = true ∧
            sth.type = FileType.Directory
        · rcases hsub : StatSelector w sel (w.join dir child) (d + 1) with ⟨rsub, t2⟩
          cases rsub with
          | error e =>
            rw [show statSelectorLoop w sel dir d (child :: rest) =
                  (Except.error e, t ++ t2) by
                simp [statSelectorLoop, hst, hcond, hsub]] at hok
            exact absurd hok (by simp)
          | ok sub =>
            rcases hrest : statSelectorLoop w sel dir d rest with ⟨res3, t3⟩
            cases res3 with
            | error e =>
              rw [show statSelectorLoop w sel dir d (child :: rest) =
                    (Except.error e, t ++ t2 ++ t3) by
                  simp [statSelectorLoop, hst, hcond, hsub, hrest]] at hok
              exact absurd hok (by simp)
            | ok tail =>
              have hmem := ih tail (by rw [hrest]) c hc st hcst hcty
              rw [hrest] at hmem
              simp at hmem
              simp [statSelectorLoop, hst, hcond, hsub, hrest, hmem]
        · rcases hrest : statSelectorLoop w sel dir d rest with ⟨res3, t3⟩
          cases res3 with
          | error e =>
            rw [show statSelectorLoop w sel dir d (child :: rest) =
                  (Except.error e, t ++ t3) by
                simp [statSelectorLoop, hst, hcond, hrest]] at hok
            exact absurd hok (by simp)
          | ok tail =>
            have hmem := ih tail (by rw [hrest]) c hc st hcst hcty
            rw [hrest] at hmem
            simp at hmem
            simp [statSelectorLoop, hst, hcond, hrest, hmem]

/-- C7: with a successful listing of `dir`, `StatSelector` at nesting depth
`d` descends into a child directory exactly when `d < max_recursion` and
`recursive` is set: when `recursive` is unset or `d ≥ max_recursion` it
returns exactly the direct children's records (regardless of their types)
and performs no listing besides `dir`'s own; when `recursive` is set and
`d < max_recursion`, every child that stats as a directory is itself
listed. -/
theorem statSelector_descends_iff (w : World) (sel : Selector) (dir : String)
    (d : Int) (children : List String)
    (hls : w.listDir dir = Except.ok children) :
    ((sel.recursive = false ∨ ¬ d < sel.max_recursion) →
       (StatSelector w sel dir d).1 = directChildrenStats w dir children ∧
       ∀ p, ExtCall.listDir p ∈ (StatSelector w sel dir d).2 → p = dir) ∧
    (sel.recursive = true → d < sel.max_recursion →
       ∀ l, (StatSelector w sel dir d).1 = Except.ok l →
         ∀ c ∈ children, ∀ st,
           (StatFile w (w.join dir c)).1 = Except.ok st →
           st.type = FileType.Directory →
           ExtCall.listDir (w.join dir c) ∈ (StatSelector w sel dir d).2) := by
  have hunf : StatSelector w sel dir d =
      ((statSelectorLoop w sel dir d children).1,
       ExtCall.listDir dir :: (statSelectorLoop w sel dir d children).2) := by
    simp [StatSelector, hls]
  constructor
  · intro hnr
    rcases statSelectorLoop_no_descent w sel dir d hnr children with ⟨h1, h2⟩
    constructor
    · rw [hunf]
      exact h1
    · intro p hp
      rw [hunf] at hp
      rcases List.mem_cons.mp hp with hp | hp
      · simpa using hp
      · exact absurd hp (h2 p)
  · intro hrec hd l hok c hc st hcst hcty
    rw [hunf] at hok ⊢
    exact List.mem_cons_of_mem _
      (statSelectorLoop_descends w sel dir d hrec hd children l hok c hc st
        hcst hcty)

/-- A world with one directory "/t" containing the regular file "a"
(10 bytes) and the subdirectory "b" (itself empty). -/
def treeWorld : World :=
  { baseWorld with
      listDir := fun p =>
        if p = "/t" then Except.ok ["a", "b"]
        else if p = "/t/b" then Except.ok []
        else Except.error { code := StatusCode.IOError, msg := "missing" },
      statCall := fun p =>
        if p = "/t/a" then
          Except.ok { isReg := true, isDir := false, st_size := 10,
                      mtimeSec := 1, mtimeNsec := 0 }
        else if p = "/t/b" then
          Except.ok { isReg := false, isDir := true, st_size := 0,
                      mtimeSec := 2, mtimeNsec := 0 }
        else Except.error Errno.ENOENT }

/-- Witness for C7: with `recursive = true` but `max_recursion = 0`, the
selector on "/t" produces exactly the direct children's records and lists
no directory besides "/t" itself. -/
theorem statSelector_descends_iff_witness :
    (StatSelector treeWorld
        { base_dir := "/t", allow_non_existent := false, recursive := true,
          max_recursion := 0 } "/t" 0).1 =
      directChildrenStats treeWorld "/t" ["a", "b"] ∧
    ∀ p, ExtCall.listDir p ∈
        (StatSelector treeWorld
            { base_dir := "/t", allow_non_existent := false, recursive := true,
              max_recursion := 0 } "/t" 0).2 → p = "/t" :=
  (statSelector_descends_iff treeWorld
    { base_dir := "/t", allow_non_existent := false, recursive := true,
      max_recursion := 0 } "/t" 0 ["a", "b"] rfl).1 (Or.inr (by decide))

end ArrowFs
